import Mathlib

/-!
Shallow embedding of the generic CRUD access layer of the
`Learning_async_python_with_fastapi` repository.

The embedding follows `app/crud/base.py` (class `CRUDBase`), its two
instantiations `app/crud/user.py` (`CRUDUser`) and `app/crud/item.py`
(`CRUDItem`), the models `app/models/user.py` / `app/models/item.py`
(with `TimestampMixin` and `PrimaryKeyMixin` from `app/models/base.py`),
and the request handlers `app/api/users.py` / `app/api/items.py`.

Modelling choices:
* integer identities and timestamps are `Nat`; `func.now()` is an explicit
  `now : Nat` argument supplied by the caller (the database clock);
* the database content is an explicit `DB` value threaded through every
  operation; `INSERT`-order of rows is the order of the Lean lists;
* `scalar_one_or_none` can raise `MultipleResultsFound` when more than one
  row matches, so repository reads return `Except DBError _`;
* `flush` of an `INSERT` enforces the declared column constraints
  (`unique=True` on `users.username` / `users.email`, the foreign key
  `items.owner_id -> users.id`), surfacing violations as `IntegrityError`,
  exactly as the spec's failure section describes ("constraint violations
  surface as storage-layer errors");
* an ORM object is dirty, and `updated_at` is refreshed by its `onupdate`
  hook, exactly when at least one attribute was assigned by the `setattr`
  loop of `CRUDBase.update`, i.e. when `model_dump(exclude_unset=True)`
  is non-empty;
* the request/session lifecycle of `app/core/database.py` (`get_db`)
  commits on success and rolls back on any raised error, so a handler is a
  function returning the response `Except ApiError α` together with the
  post-request database: the input database unchanged whenever an error
  was raised.
-/

deriving instance DecidableEq for Except

/-- Storage-layer errors raised by the database driver / result API:
`MultipleResultsFound` from `scalar_one_or_none`, `IntegrityError`
from `flush` when a declared constraint is violated. -/
inductive DBError where
  | multipleResultsFound : DBError
  | integrityError : String → DBError
deriving Repr, DecidableEq

/-- A row of the `users` table (`app/models/user.py`): `PrimaryKeyMixin`
gives `id`, `TimestampMixin` gives `created_at` / `updated_at`. -/
structure UserRow where
  id : Nat
  username : String
  email : String
  full_name : Option String
  is_active : Bool
  created_at : Nat
  updated_at : Nat
deriving Repr, DecidableEq

/-- A row of the `items` table (`app/models/item.py`). -/
structure ItemRow where
  id : Nat
  title : String
  description : Option String
  is_published : Bool
  owner_id : Nat
  created_at : Nat
  updated_at : Nat
deriving Repr, DecidableEq

/-- The database state: contents of both tables plus the autoincrement
counters used by the integer primary keys. -/
structure DB where
  users : List UserRow
  items : List ItemRow
  nextUserId : Nat
  nextItemId : Nat
deriving Repr, DecidableEq

/-- `UserCreate` schema (`app/schemas/user.py`): username, email,
optional full name, active flag (pydantic default `True`). -/
structure UserCreate where
  username : String
  email : String
  full_name : Option String := none
  is_active : Bool := true
deriving Repr, DecidableEq

/-- `UserUpdate` schema (`app/schemas/user.py`): all fields optional so
partial updates are possible.  The outer `Option` records pydantic
field *presence* (`exclude_unset`): `none` means the request body did not
mention the field at all.  For the nullable column `full_name` a present
value may itself be `none` (an explicit JSON `null`), which clears the
column; the non-nullable columns carry their plain value when present. -/
structure UserUpdate where
  username : Option String := none
  email : Option String := none
  full_name : Option (Option String) := none
  is_active : Option Bool := none
deriving Repr, DecidableEq

/-- `model_dump(exclude_unset=True)` of a `UserUpdate` is the empty dict
iff no field of the request body was set. -/
def UserUpdate.unset (u : UserUpdate) : Bool :=
  u.username.isNone && u.email.isNone && u.full_name.isNone && u.is_active.isNone

/-- `ItemCreate` schema (`app/schemas/item.py`): title, optional
description, published flag (pydantic default `False`). -/
structure ItemCreate where
  title : String
  description : Option String := none
  is_published : Bool := false
deriving Repr, DecidableEq

/-- `ItemUpdate` schema (`app/schemas/item.py`); presence conventions as
in `UserUpdate`, with `description` the nullable column. -/
structure ItemUpdate where
  title : Option String := none
  description : Option (Option String) := none
  is_published : Option Bool := none
deriving Repr, DecidableEq

/-- `model_dump(exclude_unset=True)` of an `ItemUpdate` is empty iff no
field was set. -/
def ItemUpdate.unset (u : ItemUpdate) : Bool :=
  u.title.isNone && u.description.isNone && u.is_published.isNone

/-- `Result.scalar_one_or_none()`: `none` on an empty result, the unique
row when exactly one matches, and the `MultipleResultsFound` error when
two or more rows match. -/
def scalar_one_or_none : List α → Except DBError (Option α)
  | [] => .ok none
  | [a] => .ok (some a)
  | _ :: _ :: _ => .error .multipleResultsFound

namespace CRUDUser

/-- `CRUDBase.get` instantiated at `User`:
`select(User).where(User.id == id)` then `scalar_one_or_none`. -/
def get (db : DB) (id : Nat) : Except DBError (Option UserRow) :=
  scalar_one_or_none (db.users.filter (fun u => u.id == id))

/-- Comparison used by `order_by(User.created_at.desc())`. -/
def createdDesc (a b : UserRow) : Bool :=
  b.created_at ≤ a.created_at

/-- `CRUDBase.get_multi` instantiated at `User`: SQL applies `ORDER BY
created_at DESC` first, then `OFFSET skip` and `LIMIT limit`. -/
def get_multi (db : DB) (skip limit : Nat) : List UserRow :=
  (((db.users.mergeSort createdDesc).drop skip).take limit)

/-- `CRUDBase.create` instantiated at `User` (no extra fields are passed
by any caller): builds the row from the validated input, `flush` assigns
the autoincrement id and the `func.now()` server defaults of both
timestamp columns, and enforces the `unique=True` constraints declared on
`users.username` and `users.email`. -/
def create (db : DB) (now : Nat) (c : UserCreate) : Except DBError (UserRow × DB) :=
  if db.users.any (fun u => u.username == c.username) then
    .error (.integrityError "users.username")
  else if db.users.any (fun u => u.email == c.email) then
    .error (.integrityError "users.email")
  else
    let row : UserRow :=
      { id := db.nextUserId, username := c.username, email := c.email
        full_name := c.full_name, is_active := c.is_active
        created_at := now, updated_at := now }
    .ok (row, { db with users := db.users ++ [row], nextUserId := db.nextUserId + 1 })

/-- The `setattr` loop of `CRUDBase.update` at `User`: each field present
in `model_dump(exclude_unset=True)` overwrites the stored attribute,
absent fields are untouched. -/
def applyUpdate (row : UserRow) (u : UserUpdate) : UserRow :=
  { row with
    username := u.username.getD row.username
    email := u.email.getD row.email
    full_name := u.full_name.getD row.full_name
    is_active := u.is_active.getD row.is_active }

/-- `flush` of a dirty `User` row re-checks the declared unique
constraints against the other rows of the table. -/
def flushCheck (others : List UserRow) (row : UserRow) : Except DBError Unit :=
  if others.any (fun u => u.username == row.username) then
    .error (.integrityError "users.username")
  else if others.any (fun u => u.email == row.email) then
    .error (.integrityError "users.email")
  else .ok ()

/-- `CRUDBase.update` instantiated at `User`: load via `get`; absent id
returns `none`; otherwise apply the present fields.  When no field is
present the object is never marked dirty, `flush` emits no `UPDATE`, and
the `onupdate=func.now()` hook of `updated_at` does not fire; when at
least one field is present an `UPDATE` is emitted and `updated_at` is
refreshed to `now`. -/
def update (db : DB) (now : Nat) (id : Nat) (u : UserUpdate) :
    Except DBError (Option UserRow × DB) :=
  match get db id with
  | .error e => .error e
  | .ok none => .ok (none, db)
  | .ok (some row) =>
    if u.unset then
      .ok (some row, db)
    else
      let row2 := { applyUpdate row u with updated_at := now }
      match flushCheck (db.users.filter (fun x => x.id != id)) row2 with
      | .error e => .error e
      | .ok _ =>
        .ok (some row2, { db with users := db.users.map (fun x => if x.id == id then row2 else x) })

/-- `CRUDBase.delete` instantiated at `User`: load via `get`; absent id
returns `false`; otherwise `db.delete` removes the row and — through the
`cascade="all, delete-orphan"` relationship `User.items` and the
`ondelete="CASCADE"` foreign key — every item owned by it. -/
def delete (db : DB) (id : Nat) : Except DBError (Bool × DB) :=
  match get db id with
  | .error e => .error e
  | .ok none => .ok (false, db)
  | .ok (some _) =>
    .ok (true,
      { db with
        users := db.users.filter (fun u => u.id != id)
        items := db.items.filter (fun it => it.owner_id != id) })

/-- The `User` columns `get_by_field` is used with in this repository
(`get_by_username`, `get_by_email`). -/
inductive Field where
  | username : Field
  | email : Field
deriving Repr, DecidableEq

/-- `getattr(User, field_name)` read on a row. -/
def fieldVal : Field → UserRow → String
  | .username, u => u.username
  | .email, u => u.email

/-- `CRUDBase.get_by_field` instantiated at `User`:
`select(User).where(field == value)` then `scalar_one_or_none`. -/
def get_by_field (db : DB) (f : Field) (v : String) : Except DBError (Option UserRow) :=
  scalar_one_or_none (db.users.filter (fun u => fieldVal f u == v))

/-- `CRUDUser.get_by_username`: delegates to `get_by_field`. -/
def get_by_username (db : DB) (username : String) : Except DBError (Option UserRow) :=
  get_by_field db .username username

/-- `CRUDUser.get_by_email`: delegates to `get_by_field`. -/
def get_by_email (db : DB) (email : String) : Except DBError (Option UserRow) :=
  get_by_field db .email email

end CRUDUser

namespace CRUDItem

/-- `CRUDBase.get` instantiated at `Item`. -/
def get (db : DB) (id : Nat) : Except DBError (Option ItemRow) :=
  scalar_one_or_none (db.items.filter (fun it => it.id == id))

/-- Comparison used by `order_by(Item.created_at.desc())`. -/
def createdDesc (a b : ItemRow) : Bool :=
  b.created_at ≤ a.created_at

/-- `CRUDBase.get_multi` instantiated at `Item`. -/
def get_multi (db : DB) (skip limit : Nat) : List ItemRow :=
  (((db.items.mergeSort createdDesc).drop skip).take limit)

/-- `CRUDItem.get_by_owner`: `select(Item).where(Item.owner_id ==
owner_id)` with the same ordering and pagination as `get_multi`. -/
def get_by_owner (db : DB) (owner_id : Nat) (skip limit : Nat) : List ItemRow :=
  ((((db.items.filter (fun it => it.owner_id == owner_id)).mergeSort createdDesc).drop skip).take limit)

/-- `CRUDBase.create` instantiated at `Item`: the caller
(`create_item` in `app/api/items.py`) injects `owner_id` through
`extra_fields`, so `obj_data = model_dump(input) | extra` holds exactly
the input fields plus `owner_id`.  `flush` assigns the id and the
`func.now()` defaults of both timestamps and enforces the declared
foreign key `items.owner_id -> users.id` (`ondelete="CASCADE"`). -/
def create (db : DB) (now : Nat) (c : ItemCreate) (owner_id : Nat) :
    Except DBError (ItemRow × DB) :=
  if db.users.any (fun u => u.id == owner_id) then
    let row : ItemRow :=
      { id := db.nextItemId, title := c.title, description := c.description
        is_published := c.is_published, owner_id := owner_id
        created_at := now, updated_at := now }
    .ok (row, { db with items := db.items ++ [row], nextItemId := db.nextItemId + 1 })
  else
    .error (.integrityError "items.owner_id")

/-- The `setattr` loop of `CRUDBase.update` at `Item`. -/
def applyUpdate (row : ItemRow) (u : ItemUpdate) : ItemRow :=
  { row with
    title := u.title.getD row.title
    description := u.description.getD row.description
    is_published := u.is_published.getD row.is_published }

/-- `CRUDBase.update` instantiated at `Item`: `ItemUpdate` carries no
unique column, so the dirty `flush` cannot violate a declared
constraint. -/
def update (db : DB) (now : Nat) (id : Nat) (u : ItemUpdate) :
    Except DBError (Option ItemRow × DB) :=
  match get db id with
  | .error e => .error e
  | .ok none => .ok (none, db)
  | .ok (some row) =>
    if u.unset then
      .ok (some row, db)
    else
      let row2 := { applyUpdate row u with updated_at := now }
      .ok (some row2, { db with items := db.items.map (fun x => if x.id == id then row2 else x) })

/-- `CRUDBase.delete` instantiated at `Item`: nothing references items,
so only the row itself is removed. -/
def delete (db : DB) (id : Nat) : Except DBError (Bool × DB) :=
  match get db id with
  | .error e => .error e
  | .ok none => .ok (false, db)
  | .ok (some _) =>
    .ok (true, { db with items := db.items.filter (fun it => it.id != id) })

end CRUDItem

/-- Handler-level errors of `app/core/exceptions.py` plus a constructor
for uncaught storage faults that propagate to the boundary. -/
inductive ApiError where
  | notFound : String → Nat → ApiError
  | badRequest : String → ApiError
  | storageFault : DBError → ApiError
deriving Repr, DecidableEq

/-- Well-formedness of a reachable database state: the declared primary
key and unique constraints hold, and the autoincrement counters are ahead
of every stored id. -/
def DB.WF (db : DB) : Prop :=
  (db.users.map UserRow.id).Nodup ∧
  (db.users.map UserRow.username).Nodup ∧
  (db.users.map UserRow.email).Nodup ∧
  (db.items.map ItemRow.id).Nodup ∧
  (∀ u ∈ db.users, u.id < db.nextUserId) ∧
  (∀ it ∈ db.items, it.id < db.nextItemId)

instance (db : DB) : Decidable db.WF := by
  unfold DB.WF
  infer_instance

/-- Python truthiness of an `Optional[str]` value (`if user.username:`):
true exactly when the value is present and a non-empty string. -/
def truthyStr : Option String → Bool
  | some s => !(s == "")
  | none => false

namespace api

/-- `create_user` handler (`app/api/users.py`): pre-check
`get_by_username`, then `get_by_email`; a present value raises 400
(`raise_bad_request`) before `create` is attempted.  The session of
`get_db` commits on success and rolls back on any raised error, so the
returned database is unchanged whenever the result is an error. -/
def create_user (db : DB) (now : Nat) (user : UserCreate) :
    Except ApiError UserRow × DB :=
  match CRUDUser.get_by_username db user.username with
  | .error e => (.error (.storageFault e), db)
  | .ok (some _) => (.error (.badRequest "Username already registered"), db)
  | .ok none =>
    match CRUDUser.get_by_email db user.email with
    | .error e => (.error (.storageFault e), db)
    | .ok (some _) => (.error (.badRequest "Email already registered"), db)
    | .ok none =>
      match CRUDUser.create db now user with
      | .error e => (.error (.storageFault e), db)
      | .ok (row, db2) => (.ok row, db2)

/-- Final step of the `update_user` handler (`app/api/users.py`): call
`CRUDBase.update`, mapping an absent id to 404
(`raise_not_found("User", user_id)`). -/
def update_user_commit (db : DB) (now : Nat) (user_id : Nat) (user : UserUpdate) :
    Except ApiError UserRow × DB :=
  match CRUDUser.update db now user_id user with
  | .error e => (.error (.storageFault e), db)
  | .ok (none, _) => (.error (.notFound "User" user_id), db)
  | .ok (some row, db2) => (.ok row, db2)

/-- Second pre-check of `update_user`: when the body carries a truthy
email (`if user.email:`), reject with 400 if it is already held by a
user other than `user_id`. -/
def update_user_email_check (db : DB) (now : Nat) (user_id : Nat) (user : UserUpdate) :
    Except ApiError UserRow × DB :=
  if truthyStr user.email then
    match CRUDUser.get_by_email db (user.email.getD "") with
    | .error e => (.error (.storageFault e), db)
    | .ok (some other) =>
      if other.id != user_id then (.error (.badRequest "Email already taken"), db)
      else update_user_commit db now user_id user
    | .ok none => update_user_commit db now user_id user
  else update_user_commit db now user_id user

/-- `update_user` handler (`app/api/users.py`): when the body carries a
truthy username (`if user.username:`), reject with 400 if it is already
held by a user other than `user_id`; then the email pre-check; only then
`CRUDBase.update` with its 404 mapping.  Both uniqueness pre-checks run
before the existence of `user_id` is ever consulted. -/
def update_user (db : DB) (now : Nat) (user_id : Nat) (user : UserUpdate) :
    Except ApiError UserRow × DB :=
  if truthyStr user.username then
    match CRUDUser.get_by_username db (user.username.getD "") with
    | .error e => (.error (.storageFault e), db)
    | .ok (some other) =>
      if other.id != user_id then (.error (.badRequest "Username already taken"), db)
      else update_user_email_check db now user_id user
    | .ok none => update_user_email_check db now user_id user
  else update_user_email_check db now user_id user

/-- `create_item` handler (`app/api/items.py`): verify the referenced
owner exists via `get(owner_id)`; if absent raise 404
(`raise_not_found("Owner", owner_id)`) before `create` is attempted;
otherwise create with `owner_id` injected as an extra field. -/
def create_item (db : DB) (now : Nat) (item : ItemCreate) (owner_id : Nat) :
    Except ApiError ItemRow × DB :=
  match CRUDUser.get db owner_id with
  | .error e => (.error (.storageFault e), db)
  | .ok none => (.error (.notFound "Owner" owner_id), db)
  | .ok (some _) =>
    match CRUDItem.create db now item owner_id with
    | .error e => (.error (.storageFault e), db)
    | .ok (row, db2) => (.ok row, db2)

end api

/-- Concrete fixture rows used to instantiate the theorems. -/
def exUser : UserRow :=
  { id := 1, username := "alice", email := "a@x.com", full_name := none
    is_active := true, created_at := 0, updated_at := 0 }

/-- Second fixture user. -/
def exUser2 : UserRow :=
  { id := 2, username := "bob", email := "b@x.com", full_name := some "Bob B"
    is_active := true, created_at := 1, updated_at := 1 }

/-- Fixture item owned by `exUser`. -/
def exItem : ItemRow :=
  { id := 1, title := "book", description := none, is_published := false
    owner_id := 1, created_at := 2, updated_at := 2 }

/-- Fixture item owned by `exUser2`. -/
def exItem2 : ItemRow :=
  { id := 2, title := "pen", description := some "blue", is_published := true
    owner_id := 2, created_at := 3, updated_at := 3 }

/-- Fixture database holding both users and both items. -/
def exDB : DB :=
  { users := [exUser, exUser2], items := [exItem, exItem2]
    nextUserId := 3, nextItemId := 3 }

/-- The fixture database after `CRUDUser.delete exDB 1`: the user row
and the item it owned are gone. -/
def exDBdel : DB :=
  { users := [exUser2], items := [exItem2], nextUserId := 3, nextItemId := 3 }

/-- A fixture partial update: sets a new username and explicitly clears
`full_name` (present with value null); `email` and `is_active` absent. -/
def exUpd : UserUpdate :=
  { username := some "bobby", full_name := some none }

/-- `exUser2` after applying `exUpd` at clock `9`. -/
def exUser2b : UserRow :=
  { id := 2, username := "bobby", email := "b@x.com", full_name := none
    is_active := true, created_at := 1, updated_at := 9 }

/-- The fixture database after `CRUDUser.update exDB 9 2 exUpd`. -/
def exDBupd : DB :=
  { users := [exUser, exUser2b], items := [exItem, exItem2]
    nextUserId := 3, nextItemId := 3 }

/-- A fresh creation input conflicting with nothing in `exDB`. -/
def exUC : UserCreate :=
  { username := "carol", email := "c@x.com" }

/-- The row `CRUDUser.create exDB 9 exUC` persists. -/
def exUser3 : UserRow :=
  { id := 3, username := "carol", email := "c@x.com", full_name := none
    is_active := true, created_at := 9, updated_at := 9 }

/-- A fresh item creation input. -/
def exIC : ItemCreate :=
  { title := "hat" }

/-- The row `CRUDItem.create exDB 9 exIC 1` persists. -/
def exItem3 : ItemRow :=
  { id := 3, title := "hat", description := none, is_published := false
    owner_id := 1, created_at := 9, updated_at := 9 }

section Helpers

variable {α β : Type}

/-- The head of a filtered list is the first match. -/
theorem filter_head?_eq_find? (p : α → Bool) (l : List α) :
    (l.filter p).head? = l.find? p := by
  induction l with
  | nil => rfl
  | cons a t ih =>
    by_cases h : p a
    · simp [List.filter_cons, List.find?_cons, h]
    · simp [List.filter_cons, List.find?_cons, h, ih]

/-- On a table whose projection `f` is duplicate-free, an equality filter
on `f` matches at most one row. -/
theorem length_filter_le_one [DecidableEq β] (f : α → β) (v : β) (l : List α)
    (h : (l.map f).Nodup) : (l.filter (fun x => f x == v)).length ≤ 1 := by
  induction l with
  | nil => simp
  | cons a t ih =>
    rw [List.map_cons, List.nodup_cons] at h
    by_cases hav : f a = v
    · have ht : t.filter (fun x => f x == v) = [] := by
        rw [List.filter_eq_nil_iff]
        intro x hx hfx
        exact h.1 (hav ▸ (beq_iff_eq.mp hfx) ▸ List.mem_map_of_mem f hx)
      simp [List.filter_cons, hav, ht]
    · simpa [List.filter_cons, hav] using ih h.2

/-- `scalar_one_or_none` on a result with at most one row never raises:
it returns the first (unique) match or `none`. -/
theorem scalar_one_or_none_ok (l : List α) (h : l.length ≤ 1) :
    scalar_one_or_none l = .ok l.head? := by
  match l with
  | [] => rfl
  | [a] => rfl
  | a :: b :: t => simp at h

/-- Equality lookups through `scalar_one_or_none` over a duplicate-free
projection return the unique match (`find?`) and never raise. -/
theorem lookup_ok [DecidableEq β] (f : α → β) (v : β) (l : List α)
    (h : (l.map f).Nodup) :
    scalar_one_or_none (l.filter (fun x => f x == v)) =
      .ok (l.find? (fun x => f x == v)) := by
  rw [scalar_one_or_none_ok _ (length_filter_le_one f v l h), filter_head?_eq_find?]

/-- Core pagination fact: over a fixed (sorted) sequence, page one
(`take n`) and page two (`take n` of `drop n`) concatenate to the first
`n + n` elements, are disjoint when the sequence is duplicate-free, and
are each sorted when the sequence is. -/
theorem paging_facts (s : List α) (R : α → α → Prop) (n : Nat)
    (hnd : s.Nodup) (hsort : s.Pairwise R) :
    (s.take n ++ (s.drop n).take n = s.take (n + n)) ∧
    (∀ x ∈ s.take n, x ∉ (s.drop n).take n) ∧
    (s.take n).Pairwise R ∧ ((s.drop n).take n).Pairwise R := by
  refine ⟨(List.take_add s n n).symm, ?_, ?_, ?_⟩
  · intro x hx1 hx2
    exact List.disjoint_take_drop hnd (Nat.le_refl n) hx1
      ((List.take_sublist n (s.drop n)).mem hx2)
  · exact hsort.sublist (List.take_sublist n s)
  · exact hsort.sublist ((List.take_sublist n (s.drop n)).trans (List.drop_sublist n s))

end Helpers

section AbsenceLemmas

/-- `get` on an id matching no user row returns `.ok none`. -/
theorem user_get_absent (db : DB) (id : Nat) (h : ∀ u ∈ db.users, u.id ≠ id) :
    CRUDUser.get db id = .ok none := by
  unfold CRUDUser.get
  have hf : db.users.filter (fun u => u.id == id) = [] := by
    rw [List.filter_eq_nil_iff]
    intro u hu hid
    exact h u hu (by simpa using hid)
  rw [hf]; rfl

/-- `get` on an id matching no item row returns `.ok none`. -/
theorem item_get_absent (db : DB) (id : Nat) (h : ∀ it ∈ db.items, it.id ≠ id) :
    CRUDItem.get db id = .ok none := by
  unfold CRUDItem.get
  have hf : db.items.filter (fun it => it.id == id) = [] := by
    rw [List.filter_eq_nil_iff]
    intro it hit hid
    exact h it hit (by simpa using hid)
  rw [hf]; rfl

end AbsenceLemmas

/-- C8: on an identity absent from storage, `get` returns `.ok none`,
`update` returns `.ok none`, `delete` returns `.ok false`; none of the
three raises a storage error and the database is unchanged — for both
the `User` and the `Item` instantiation of `CRUDBase`. -/
theorem C8_absent_id_behavior (db : DB) (now id : Nat) (uu : UserUpdate) (iu : ItemUpdate)
    (hu : ∀ u ∈ db.users, u.id ≠ id) (hi : ∀ it ∈ db.items, it.id ≠ id) :
    CRUDUser.get db id = .ok none ∧
    CRUDUser.update db now id uu = .ok (none, db) ∧
    CRUDUser.delete db id = .ok (false, db) ∧
    CRUDItem.get db id = .ok none ∧
    CRUDItem.update db now id iu = .ok (none, db) ∧
    CRUDItem.delete db id = .ok (false, db) := by
  have hgu := user_get_absent db id hu
  have hgi := item_get_absent db id hi
  refine ⟨hgu, ?_, ?_, hgi, ?_, ?_⟩
  · simp [CRUDUser.update, hgu]
  · simp [CRUDUser.delete, hgu]
  · simp [CRUDItem.update, hgi]
  · simp [CRUDItem.delete, hgi]

/-- Witness for C8 at identity `7` on the concrete fixture database. -/
theorem C8_witness :
    CRUDUser.get exDB 7 = .ok none ∧
    CRUDUser.update exDB 9 7 {} = .ok (none, exDB) ∧
    CRUDUser.delete exDB 7 = .ok (false, exDB) ∧
    CRUDItem.get exDB 7 = .ok none ∧
    CRUDItem.update exDB 9 7 {} = .ok (none, exDB) ∧
    CRUDItem.delete exDB 7 = .ok (false, exDB) :=
  C8_absent_id_behavior exDB 9 7 {} {} (by decide) (by decide)

/-- C9: an Item-creation request whose `owner_id` matches no stored user
is rejected by `create_item` with the 404 error
`notFound "Owner" owner_id` before `CRUDBase.create` is attempted, and
the database (hence its row count) is unchanged. -/
theorem C9_create_item_absent_owner (db : DB) (now : Nat) (c : ItemCreate) (owner : Nat)
    (habs : ∀ u ∈ db.users, u.id ≠ owner) :
    api.create_item db now c owner = (.error (.notFound "Owner" owner), db) ∧
    (api.create_item db now c owner).2.items.length = db.items.length := by
  have hg := user_get_absent db owner habs
  have hmain : api.create_item db now c owner = (.error (.notFound "Owner" owner), db) := by
    simp [api.create_item, hg]
  exact ⟨hmain, by rw [hmain]⟩

/-- Witness for C9: creating an item for the absent owner `99` on the
fixture database. -/
theorem C9_witness :
    api.create_item exDB 9 { title := "x" } 99 = (.error (.notFound "Owner" 99), exDB) ∧
    (api.create_item exDB 9 { title := "x" } 99).2.items.length = exDB.items.length :=
  C9_create_item_absent_owner exDB 9 { title := "x" } 99 (by decide)

/-- C1 counterexample: the stored user `exUser` has `updated_at = 0`;
updating it at clock `5` with the empty partial-input returns the row
literally unchanged — its `updated_at` is still `0`, so it did not
strictly increase.  With no field in `model_dump(exclude_unset=True)`
the `setattr` loop runs zero times, the ORM object stays clean, `flush`
emits no `UPDATE`, and the `onupdate=func.now()` hook never fires. -/
theorem C1_counterexample :
    CRUDUser.update exDB 5 1 {} = .ok (some exUser, exDB) ∧
    exUser.updated_at = 0 ∧ ¬ ((0 : Nat) > 0) := by
  refine ⟨by decide, rfl, by decide⟩

/-- C1 (amended): `update` with an empty partial-input returns the
stored entity with *all* fields unchanged — `updated_at` included — and
leaves the database unchanged; `updated_at` is only refreshed when at
least one field is supplied. -/
theorem C1_amended_empty_update (db : DB) (now id : Nat) (u : UserUpdate) (row : UserRow)
    (hget : CRUDUser.get db id = .ok (some row)) (hu : u.unset = true) :
    CRUDUser.update db now id u = .ok (some row, db) := by
  simp [CRUDUser.update, hget, hu]

/-- Witness for the amended C1 on the fixture database. -/
theorem C1_witness :
    CRUDUser.update exDB 5 1 {} = .ok (some exUser, exDB) :=
  C1_amended_empty_update exDB 5 1 {} exUser (by decide) rfl

/-- C2: a successful `delete` of a user removes every item whose
`owner_id` references it: afterwards `get_by_owner` for that owner is
empty for every page, no remaining item references the deleted user,
and — assuming every item's owner resolved to a stored user before the
delete — every remaining item's owner still resolves to a stored user. -/
theorem C2_delete_user_cascades (db db2 : DB) (uid : Nat)
    (hFK : ∀ it ∈ db.items, ∃ u ∈ db.users, u.id = it.owner_id)
    (hdel : CRUDUser.delete db uid = .ok (true, db2)) :
    (∀ skip limit, CRUDItem.get_by_owner db2 uid skip limit = []) ∧
    (∀ it ∈ db2.items, it.owner_id ≠ uid) ∧
    (∀ it ∈ db2.items, ∃ u ∈ db2.users, u.id = it.owner_id) := by
  have hdb2 : db2 =
      { db with users := db.users.filter (fun u => u.id != uid)
                items := db.items.filter (fun it => it.owner_id != uid) } := by
    unfold CRUDUser.delete at hdel
    match hg : CRUDUser.get db uid with
    | .error e => rw [hg] at hdel; simp at hdel
    | .ok none => rw [hg] at hdel; simp at hdel
    | .ok (some u) => rw [hg] at hdel; simp at hdel; exact hdel.symm
  subst hdb2
  refine ⟨?_, ?_, ?_⟩
  · intro skip limit
    unfold CRUDItem.get_by_owner
    have hnil :
        (db.items.filter (fun it => it.owner_id != uid)).filter
          (fun it => it.owner_id == uid) = [] := by
      rw [List.filter_eq_nil_iff]
      intro it hit
      simp only [List.mem_filter, bne_iff_ne, ne_eq] at hit
      simp [hit.2]
    simp [hnil]
  · intro it hit
    simp only [List.mem_filter, bne_iff_ne, ne_eq] at hit
    exact hit.2
  · intro it hit
    simp only [List.mem_filter, bne_iff_ne, ne_eq] at hit
    obtain ⟨u, hu, hid⟩ := hFK it hit.1
    refine ⟨u, ?_, hid⟩
    simp only [List.mem_filter, bne_iff_ne, ne_eq]
    exact ⟨hu, fun h => hit.2 (hid ▸ h)⟩

/-- Witness for C2: deleting user `1` from the fixture database leaves
no item of owner `1` and only items whose owners are still stored. -/
theorem C2_witness :
    CRUDItem.get_by_owner exDBdel 1 0 100 = [] ∧
    exItem2.owner_id ≠ 1 ∧
    (∃ u ∈ exDBdel.users, u.id = exItem2.owner_id) := by
  have h := C2_delete_user_cascades exDB exDBdel 1
    (by decide) (by decide)
  exact ⟨h.1 0 100, h.2.1 exItem2 (by decide), h.2.2 exItem2 (by decide)⟩

/-- C5: whenever `update` succeeds on a stored entity, the returned
entity carries exactly the values of the fields *present* in the
partial-input (presence, not value-nullness: a present explicit null
clears the nullable `full_name`), and every absent field — as well as
`id` and `created_at` — keeps its previous value. -/
theorem C5_update_overwrites_present_fields (db db2 : DB) (now id : Nat)
    (u : UserUpdate) (row row2 : UserRow)
    (hget : CRUDUser.get db id = .ok (some row))
    (hupd : CRUDUser.update db now id u = .ok (some row2, db2)) :
    row2.username = u.username.getD row.username ∧
    row2.email = u.email.getD row.email ∧
    row2.full_name = u.full_name.getD row.full_name ∧
    row2.is_active = u.is_active.getD row.is_active ∧
    row2.id = row.id ∧ row2.created_at = row.created_at := by
  unfold CRUDUser.update at hupd
  rw [hget] at hupd
  by_cases hu : u.unset = true
  · simp only [hu, if_true] at hupd
    simp only [Except.ok.injEq, Prod.mk.injEq, Option.some.injEq] at hupd
    obtain ⟨hrow, -⟩ := hupd
    subst hrow
    unfold UserUpdate.unset at hu
    simp only [Bool.and_eq_true, Option.isNone_iff_eq_none] at hu
    obtain ⟨⟨⟨h1, h2⟩, h3⟩, h4⟩ := hu
    simp [h1, h2, h3, h4]
  · simp only [Bool.not_eq_true] at hu
    simp only [hu, if_false, Bool.false_eq_true] at hupd
    split at hupd
    · simp at hupd
    · simp only [Except.ok.injEq, Prod.mk.injEq, Option.some.injEq] at hupd
      obtain ⟨hrow, -⟩ := hupd
      subst hrow
      simp [CRUDUser.applyUpdate]

/-- Witness for C5: applying `exUpd` (new username, explicit null
`full_name`) to user `2` of the fixture database. -/
theorem C5_witness :
    exUser2b.username = exUpd.username.getD exUser2.username ∧
    exUser2b.email = exUpd.email.getD exUser2.email ∧
    exUser2b.full_name = exUpd.full_name.getD exUser2.full_name ∧
    exUser2b.is_active = exUpd.is_active.getD exUser2.is_active ∧
    exUser2b.id = exUser2.id ∧ exUser2b.created_at = exUser2.created_at :=
  C5_update_overwrites_present_fields exDB exDBupd 9 2 exUpd exUser2 exUser2b
    (by decide) (by decide)

/-- C6: on a valid creation input that violates no stored-layer
constraint, `create` returns the persisted entity with the
system-assigned identity (the autoincrement counter, distinct from every
stored id on a well-formed database), `created_at` equal to
`updated_at` (both server defaults of the same statement), and field
values exactly the validated input — merged, for the `Item`
instantiation, with the injected extra field `owner_id`. -/
theorem C6_create_returns_assigned_entity (db : DB) (now : Nat)
    (c : UserCreate) (ic : ItemCreate) (owner : Nat) (hWF : db.WF)
    (hun : ∀ u ∈ db.users, u.username ≠ c.username)
    (hem : ∀ u ∈ db.users, u.email ≠ c.email)
    (how : ∃ u ∈ db.users, u.id = owner) :
    CRUDUser.create db now c =
      .ok ({ id := db.nextUserId, username := c.username, email := c.email
             full_name := c.full_name, is_active := c.is_active
             created_at := now, updated_at := now },
           { db with
             users := db.users ++
               [{ id := db.nextUserId, username := c.username, email := c.email
                  full_name := c.full_name, is_active := c.is_active
                  created_at := now, updated_at := now }]
             nextUserId := db.nextUserId + 1 }) ∧
    (∀ u ∈ db.users, u.id ≠ db.nextUserId) ∧
    CRUDItem.create db now ic owner =
      .ok ({ id := db.nextItemId, title := ic.title, description := ic.description
             is_published := ic.is_published, owner_id := owner
             created_at := now, updated_at := now },
           { db with
             items := db.items ++
               [{ id := db.nextItemId, title := ic.title, description := ic.description
                  is_published := ic.is_published, owner_id := owner
                  created_at := now, updated_at := now }]
             nextItemId := db.nextItemId + 1 }) ∧
    (∀ it ∈ db.items, it.id ≠ db.nextItemId) := by
  obtain ⟨-, -, -, -, hulid, hitid⟩ := hWF
  have hanyu : db.users.any (fun u => u.username == c.username) = false := by
    rw [List.any_eq_false]
    intro u hu
    simpa using hun u hu
  have hanye : db.users.any (fun u => u.email == c.email) = false := by
    rw [List.any_eq_false]
    intro u hu
    simpa using hem u hu
  have hanyo : db.users.any (fun u => u.id == owner) = true := by
    rw [List.any_eq_true]
    obtain ⟨u, hu, hid⟩ := how
    exact ⟨u, hu, by simpa using hid⟩
  refine ⟨?_, ?_, ?_, ?_⟩
  · simp [CRUDUser.create, hanyu, hanye]
  · intro u hu
    exact Nat.ne_of_lt (hulid u hu)
  · simp [CRUDItem.create, hanyo]
  · intro it hit
    exact Nat.ne_of_lt (hitid it hit)

/-- Witness for C6 on the fixture database: creating user `carol` and an
item `hat` owned by user `1`, both at clock `9`. -/
theorem C6_witness :
    CRUDUser.create exDB 9 exUC =
      .ok (exUser3, { exDB with users := exDB.users ++ [exUser3], nextUserId := 4 }) ∧
    exUser.id ≠ exDB.nextUserId ∧
    CRUDItem.create exDB 9 exIC 1 =
      .ok (exItem3, { exDB with items := exDB.items ++ [exItem3], nextItemId := 4 }) ∧
    exItem.id ≠ exDB.nextItemId := by
  have h := C6_create_returns_assigned_entity exDB 9 exUC exIC 1
    (by decide) (by decide) (by decide) ⟨exUser, by decide, rfl⟩
  exact ⟨h.1, h.2.1 exUser (by decide), h.2.2.1, h.2.2.2 exItem (by decide)⟩

/-- C4: on a well-formed database the repository lookups never raise:
`get` (both entities) and `get_by_field` (on the unique fields it is
used with in practice) return `.ok` of the unique matching row, or
`.ok none` when no row matches. -/
theorem C4_lookups_never_raise (db : DB) (hWF : db.WF) (id : Nat)
    (f : CRUDUser.Field) (v : String) :
    CRUDUser.get db id = .ok (db.users.find? (fun u => u.id == id)) ∧
    CRUDItem.get db id = .ok (db.items.find? (fun it => it.id == id)) ∧
    CRUDUser.get_by_field db f v =
      .ok (db.users.find? (fun u => CRUDUser.fieldVal f u == v)) := by
  obtain ⟨huid, hname, hmail, hiid, -, -⟩ := hWF
  refine ⟨?_, ?_, ?_⟩
  · unfold CRUDUser.get
    exact lookup_ok UserRow.id id db.users huid
  · unfold CRUDItem.get
    exact lookup_ok ItemRow.id id db.items hiid
  · unfold CRUDUser.get_by_field
    cases f with
    | username => exact lookup_ok (CRUDUser.fieldVal .username) v db.users (by simpa [CRUDUser.fieldVal] using hname)
    | email => exact lookup_ok (CRUDUser.fieldVal .email) v db.users (by simpa [CRUDUser.fieldVal] using hmail)

/-- Witness for C4 on the fixture database: lookup by id `1` and by
username `"alice"`. -/
theorem C4_witness :
    CRUDUser.get exDB 1 = .ok (exDB.users.find? (fun u => u.id == 1)) ∧
    CRUDItem.get exDB 1 = .ok (exDB.items.find? (fun it => it.id == 1)) ∧
    CRUDUser.get_by_field exDB .username "alice" =
      .ok (exDB.users.find? (fun u => CRUDUser.fieldVal .username u == "alice")) :=
  C4_lookups_never_raise exDB (by decide) 1 .username "alice"

/-- `get_by_username` under a duplicate-free username column: the unique
match (or `none`), never an error. -/
theorem get_by_username_ok (db : DB) (v : String)
    (h : (db.users.map UserRow.username).Nodup) :
    CRUDUser.get_by_username db v =
      .ok (db.users.find? (fun u => u.username == v)) := by
  unfold CRUDUser.get_by_username CRUDUser.get_by_field
  exact lookup_ok UserRow.username v db.users h

/-- `get_by_email` under a duplicate-free email column: the unique match
(or `none`), never an error. -/
theorem get_by_email_ok (db : DB) (v : String)
    (h : (db.users.map UserRow.email).Nodup) :
    CRUDUser.get_by_email db v =
      .ok (db.users.find? (fun u => u.email == v)) := by
  unfold CRUDUser.get_by_email CRUDUser.get_by_field
  exact lookup_ok UserRow.email v db.users h

/-- C3: a User-creation request whose username or email is already
stored is rejected by the `create_user` handler with a 400 bad-request
error raised by the pre-checks, before `CRUDBase.create` is ever
attempted; the database — hence its row count — is unchanged. -/
theorem C3_duplicate_user_create_rejected (db : DB) (now : Nat) (c : UserCreate)
    (hWF : db.WF)
    (hdup : ∃ u ∈ db.users, u.username = c.username ∨ u.email = c.email) :
    (api.create_user db now c).2 = db ∧
    ((api.create_user db now c).1 = .error (.badRequest "Username already registered") ∨
     (api.create_user db now c).1 = .error (.badRequest "Email already registered")) := by
  obtain ⟨-, hname, hmail, -, -, -⟩ := hWF
  have hgu := get_by_username_ok db c.username hname
  have hge := get_by_email_ok db c.email hmail
  match hfu : db.users.find? (fun u => u.username == c.username) with
  | some w =>
    have hres : api.create_user db now c =
        (.error (.badRequest "Username already registered"), db) := by
      unfold api.create_user
      rw [hgu, hfu]
    rw [hres]
    exact ⟨rfl, Or.inl rfl⟩
  | none =>
    have hnone : ∀ u ∈ db.users, u.username ≠ c.username := by
      intro u hu heq
      have hx := List.find?_eq_none.mp hfu u hu
      simp [heq] at hx
    have hemail : ∃ u ∈ db.users, u.email = c.email := by
      obtain ⟨u, hu, hcase⟩ := hdup
      cases hcase with
      | inl h => exact absurd h (hnone u hu)
      | inr h => exact ⟨u, hu, h⟩
    have hfe : ∃ w, db.users.find? (fun u => u.email == c.email) = some w := by
      rw [← Option.isSome_iff_exists, List.find?_isSome]
      obtain ⟨u, hu, h⟩ := hemail
      exact ⟨u, hu, by simpa using h⟩
    obtain ⟨w, hfe⟩ := hfe
    have hres : api.create_user db now c =
        (.error (.badRequest "Email already registered"), db) := by
      unfold api.create_user
      rw [hgu, hfu, hge, hfe]
    rw [hres]
    exact ⟨rfl, Or.inr rfl⟩

/-- Witness for C3: creating a second `"alice"` (fresh email) against
the fixture database is rejected with 400 and leaves the database as it
was. -/
theorem C3_witness :
    (api.create_user exDB 9 { username := "alice", email := "zz@x.com" }).2 = exDB ∧
    ((api.create_user exDB 9 { username := "alice", email := "zz@x.com" }).1 =
        .error (.badRequest "Username already registered") ∨
     (api.create_user exDB 9 { username := "alice", email := "zz@x.com" }).1 =
        .error (.badRequest "Email already registered")) :=
  C3_duplicate_user_create_rejected exDB 9 { username := "alice", email := "zz@x.com" }
    (by decide) ⟨exUser, by decide, Or.inl rfl⟩

/-- When the partial-input carries a truthy email already held by a user
other than `user_id`, the email pre-check of `update_user` rejects with
400 and the database is unchanged. -/
theorem email_check_bad (db : DB) (now user_id : Nat) (u : UserUpdate)
    (hmail : (db.users.map UserRow.email).Nodup)
    (habs : ∀ w ∈ db.users, w.id ≠ user_id)
    (ht : ∃ t, u.email = some t ∧ t ≠ "" ∧ ∃ w ∈ db.users, w.email = t) :
    api.update_user_email_check db now user_id u =
      (.error (.badRequest "Email already taken"), db) := by
  obtain ⟨t, hue, htne, w, hw, hwem⟩ := ht
  have hge := get_by_email_ok db t hmail
  have hfe : ∃ w2, db.users.find? (fun x => x.email == t) = some w2 := by
    rw [← Option.isSome_iff_exists, List.find?_isSome]
    exact ⟨w, hw, by simpa using hwem⟩
  obtain ⟨w2, hfe⟩ := hfe
  have hw2mem : w2 ∈ db.users := List.mem_of_find?_eq_some hfe
  have hw2id : (w2.id != user_id) = true := by
    simpa [bne_iff_ne] using habs w2 hw2mem
  have htt : truthyStr u.email = true := by
    simp [hue, truthyStr, htne]
  unfold api.update_user_email_check
  rw [htt, if_pos rfl, hue]
  simp only [Option.getD_some]
  rw [hge, hfe]
  simp [hw2id]

/-- C10: a PATCH of a User whose identity is absent from storage, whose
partial-input supplies a username or email already held by an existing
user, is answered by `update_user` with a 400 bad-request error — not
with the 404 that the absent identity would otherwise produce — because
both uniqueness pre-checks run before `CRUDBase.update` performs the
existence check; the database is unchanged. -/
theorem C10_uniqueness_precheck_before_existence (db : DB) (now user_id : Nat)
    (u : UserUpdate) (hWF : db.WF)
    (habs : ∀ w ∈ db.users, w.id ≠ user_id)
    (hdup : (∃ s, u.username = some s ∧ s ≠ "" ∧ ∃ w ∈ db.users, w.username = s) ∨
            (∃ t, u.email = some t ∧ t ≠ "" ∧ ∃ w ∈ db.users, w.email = t)) :
    ((api.update_user db now user_id u).1 = .error (.badRequest "Username already taken") ∨
     (api.update_user db now user_id u).1 = .error (.badRequest "Email already taken")) ∧
    (api.update_user db now user_id u).2 = db := by
  obtain ⟨-, hname, hmail, -, -, -⟩ := hWF
  by_cases htu : truthyStr u.username = true
  · match hus : u.username with
    | none => rw [hus] at htu; simp [truthyStr] at htu
    | some s =>
      have hsne : s ≠ "" := by
        rw [hus] at htu
        simpa [truthyStr] using htu
      have hgu := get_by_username_ok db s hname
      match hfu : db.users.find? (fun x => x.username == s) with
      | some w =>
        have hwmem : w ∈ db.users := List.mem_of_find?_eq_some hfu
        have hwid : (w.id != user_id) = true := by
          simpa [bne_iff_ne] using habs w hwmem
        have hres : api.update_user db now user_id u =
            (.error (.badRequest "Username already taken"), db) := by
          unfold api.update_user
          rw [htu, if_pos rfl, hus]
          simp only [Option.getD_some]
          rw [hgu, hfu]
          simp [hwid]
        rw [hres]
        exact ⟨Or.inl rfl, rfl⟩
      | none =>
        have hemail : ∃ t, u.email = some t ∧ t ≠ "" ∧ ∃ w ∈ db.users, w.email = t := by
          cases hdup with
          | inl h =>
            obtain ⟨s2, hus2, -, w, hw, hwname⟩ := h
            rw [hus] at hus2
            have hs2 : s2 = s := by injection hus2.symm
            have hx := List.find?_eq_none.mp hfu w hw
            simp [hwname, hs2] at hx
          | inr h => exact h
        have hec := email_check_bad db now user_id u hmail habs hemail
        have hres : api.update_user db now user_id u =
            (.error (.badRequest "Email already taken"), db) := by
          unfold api.update_user
          rw [htu, if_pos rfl, hus]
          simp only [Option.getD_some]
          rw [hgu, hfu, hec]
        rw [hres]
        exact ⟨Or.inr rfl, rfl⟩
  · have hemail : ∃ t, u.email = some t ∧ t ≠ "" ∧ ∃ w ∈ db.users, w.email = t := by
      cases hdup with
      | inl h =>
        obtain ⟨s, hus, hsne, -⟩ := h
        rw [hus] at htu
        simp [truthyStr, hsne] at htu
      | inr h => exact h
    have hec := email_check_bad db now user_id u hmail habs hemail
    have hres : api.update_user db now user_id u =
        (.error (.badRequest "Email already taken"), db) := by
      unfold api.update_user
      rw [if_neg htu, hec]
    rw [hres]
    exact ⟨Or.inr rfl, rfl⟩

/-- Witness for C10: PATCH of absent user `99` supplying the taken
username `"alice"` yields 400, not 404, on the fixture database. -/
theorem C10_witness :
    ((api.update_user exDB 9 99 { username := some "alice" }).1 =
        .error (.badRequest "Username already taken") ∨
     (api.update_user exDB 9 99 { username := some "alice" }).1 =
        .error (.badRequest "Email already taken")) ∧
    (api.update_user exDB 9 99 { username := some "alice" }).2 = exDB :=
  C10_uniqueness_precheck_before_existence exDB 9 99 { username := some "alice" }
    (by decide) (by decide)
    (Or.inl ⟨"alice", rfl, by decide, exUser, by decide, rfl⟩)

/-- The descending-creation-time comparison on users is transitive. -/
theorem userCreatedDesc_trans :
    ∀ a b c : UserRow, CRUDUser.createdDesc a b → CRUDUser.createdDesc b c →
      CRUDUser.createdDesc a c := by
  intro a b c hab hbc
  simp only [CRUDUser.createdDesc, decide_eq_true_eq] at *
  omega

/-- The descending-creation-time comparison on users is total. -/
theorem userCreatedDesc_total :
    ∀ a b : UserRow, CRUDUser.createdDesc a b || CRUDUser.createdDesc b a := by
  intro a b
  simp only [CRUDUser.createdDesc, Bool.or_eq_true, decide_eq_true_eq]
  omega

/-- The descending-creation-time comparison on items is transitive. -/
theorem itemCreatedDesc_trans :
    ∀ a b c : ItemRow, CRUDItem.createdDesc a b → CRUDItem.createdDesc b c →
      CRUDItem.createdDesc a c := by
  intro a b c hab hbc
  simp only [CRUDItem.createdDesc, decide_eq_true_eq] at *
  omega

/-- The descending-creation-time comparison on items is total. -/
theorem itemCreatedDesc_total :
    ∀ a b : ItemRow, CRUDItem.createdDesc a b || CRUDItem.createdDesc b a := by
  intro a b
  simp only [CRUDItem.createdDesc, Bool.or_eq_true, decide_eq_true_eq]
  omega

/-- C7: with no concurrent writes, `list(skip=0, limit=n)` followed by
`list(skip=n, limit=n)` — for `get_multi` on users and for
`get_by_owner` on items — yields pages that concatenate to the first
`n + n` elements of the fixed creation-time-descending ordering
(contiguous, no gaps), share no element (no duplicates, using that
a well-formed database has duplicate-free rows), and are each ordered by
creation time descending. -/
theorem C7_pagination_pages (db : DB) (n owner : Nat) (hWF : db.WF) :
    (CRUDUser.get_multi db 0 n ++ CRUDUser.get_multi db n n =
      (db.users.mergeSort CRUDUser.createdDesc).take (n + n)) ∧
    (∀ x ∈ CRUDUser.get_multi db 0 n, x ∉ CRUDUser.get_multi db n n) ∧
    (CRUDUser.get_multi db 0 n).Pairwise (fun a b => b.created_at ≤ a.created_at) ∧
    (CRUDUser.get_multi db n n).Pairwise (fun a b => b.created_at ≤ a.created_at) ∧
    (CRUDItem.get_by_owner db owner 0 n ++ CRUDItem.get_by_owner db owner n n =
      ((db.items.filter (fun it => it.owner_id == owner)).mergeSort
        CRUDItem.createdDesc).take (n + n)) ∧
    (∀ x ∈ CRUDItem.get_by_owner db owner 0 n, x ∉ CRUDItem.get_by_owner db owner n n) ∧
    (CRUDItem.get_by_owner db owner 0 n).Pairwise (fun a b => b.created_at ≤ a.created_at) ∧
    (CRUDItem.get_by_owner db owner n n).Pairwise (fun a b => b.created_at ≤ a.created_at) := by
  obtain ⟨huid, -, -, hiid, -, -⟩ := hWF
  have hundup : (db.users.mergeSort CRUDUser.createdDesc).Nodup :=
    (List.mergeSort_perm db.users CRUDUser.createdDesc).nodup_iff.mpr huid.of_map
  have hupair : (db.users.mergeSort CRUDUser.createdDesc).Pairwise
      (fun a b => b.created_at ≤ a.created_at) := by
    have h := List.sorted_mergeSort userCreatedDesc_trans userCreatedDesc_total db.users
    exact h.imp (by
      intro a b hab
      simpa [CRUDUser.createdDesc] using hab)
  have hu0 : CRUDUser.get_multi db 0 n =
      (db.users.mergeSort CRUDUser.createdDesc).take n := by
    unfold CRUDUser.get_multi
    rw [List.drop_zero]
  have hitemsnd : db.items.Nodup := hiid.of_map
  have hindup : ((db.items.filter (fun it => it.owner_id == owner)).mergeSort
      CRUDItem.createdDesc).Nodup :=
    (List.mergeSort_perm _ CRUDItem.createdDesc).nodup_iff.mpr
      (hitemsnd.filter _)
  have hipair : ((db.items.filter (fun it => it.owner_id == owner)).mergeSort
      CRUDItem.createdDesc).Pairwise (fun a b => b.created_at ≤ a.created_at) := by
    have h := List.sorted_mergeSort itemCreatedDesc_trans itemCreatedDesc_total
      (db.items.filter (fun it => it.owner_id == owner))
    exact h.imp (by
      intro a b hab
      simpa [CRUDItem.createdDesc] using hab)
  have hi0 : CRUDItem.get_by_owner db owner 0 n =
      ((db.items.filter (fun it => it.owner_id == owner)).mergeSort
        CRUDItem.createdDesc).take n := by
    unfold CRUDItem.get_by_owner
    rw [List.drop_zero]
  obtain ⟨hua, hud, hup1, hup2⟩ :=
    paging_facts (db.users.mergeSort CRUDUser.createdDesc)
      (fun a b => b.created_at ≤ a.created_at) n hundup hupair
  obtain ⟨hia, hid, hip1, hip2⟩ :=
    paging_facts ((db.items.filter (fun it => it.owner_id == owner)).mergeSort
      CRUDItem.createdDesc)
      (fun a b => b.created_at ≤ a.created_at) n hindup hipair
  rw [hu0, hi0]
  exact ⟨hua, hud, hup1, hup2, hia, hid, hip1, hip2⟩

/-- Witness for C7 with page size `1` on the fixture database: the two
user pages are `[exUser2]` then `[exUser]` (descending creation time,
disjoint, contiguous), and the owner-1 item pages are `[exItem]` then
`[]`. -/
theorem C7_witness :
    (CRUDUser.get_multi exDB 0 1 ++ CRUDUser.get_multi exDB 1 1 =
      (exDB.users.mergeSort CRUDUser.createdDesc).take 2) ∧
    exUser2 ∉ CRUDUser.get_multi exDB 1 1 ∧
    (CRUDItem.get_by_owner exDB 1 0 1 ++ CRUDItem.get_by_owner exDB 1 1 1 =
      ((exDB.items.filter (fun it => it.owner_id == 1)).mergeSort
        CRUDItem.createdDesc).take 2) ∧
    exItem ∉ CRUDItem.get_by_owner exDB 1 1 1 := by
  have h := C7_pagination_pages exDB 1 1 (by decide)
  refine ⟨h.1, h.2.1 exUser2 ?_, h.2.2.2.2.1, h.2.2.2.2.2.1 exItem ?_⟩
  · simp [CRUDUser.get_multi, exDB, exUser, exUser2, List.mergeSort,
      CRUDUser.createdDesc]
  · simp [CRUDItem.get_by_owner, exDB, exItem, exItem2, List.mergeSort,
      CRUDItem.createdDesc]
